import Mathlib

/-!
Verification of the scalar-field resolver, default-value resolver, field code
emitter and service method emitter of ntex-grpc (prost-derive scalar fields
and the gRPC client code generator), shallowly embedded in Lean.

Embedding conventions:
* Rust `Result<T, anyhow::Error>` becomes `Except String T`; error messages
  follow the source's `bail!` strings, with formatted payloads elided.
* Machine integers are embedded as `Nat`/`Int` with explicit range checks at
  the points where the source parses or narrows (`base10_parse`, `try_from`).
* Floating-point values never participate in arithmetic here; a parsed float
  literal is kept symbolically as its sign and digit text (`FloatLit`).
* Token streams produced by `quote!` are embedded as small structured values
  (`Tokens`, `EncodeFrag`, `LenFrag`, `MethodDef`) recording exactly the
  shape of the emitted fragment.
-/

namespace Grpc

deriving instance DecidableEq for Except

/-- Symbolic stand-in for a parsed floating-point number: the sign applied by
the resolver and the digit text of the literal. No float arithmetic is
modelled; only identity of the parsed literal matters here. -/
structure FloatLit where
  neg : Bool
  text : String
deriving DecidableEq, Repr

/-- A literal attribute value, embedding the shapes of the host tokenizer's
literals that the resolver distinguishes (syn::Lit): integer with suffix,
float with suffix, boolean, string, byte string. -/
inductive Lit where
  | int (value : Nat) (suffix : String)
  | float (text : String) (suffix : String)
  | bool (b : Bool)
  | str (s : String)
  | byteStr (bytes : List Nat)
deriving DecidableEq, Repr

/-- A scalar protobuf field type (scalar.rs `Ty`). The enumeration variant
carries the path of the externally defined enum type, kept as its text. -/
inductive Ty where
  | double
  | float
  | int32
  | int64
  | uint32
  | uint64
  | sint32
  | sint64
  | fixed32
  | fixed64
  | sfixed32
  | sfixed64
  | bool
  | string
  | bytes
  | enumeration (path : String)
deriving DecidableEq, Repr

/-- Returns false if the scalar type is length delimited (string or bytes);
scalar.rs `Ty::is_numeric`. -/
def Ty.is_numeric : Ty → Bool
  | .string | .bytes => false
  | _ => true

/-- A field label (crate::field::Label): optional, required or repeated. -/
inductive Label where
  | optional
  | required
  | repeated
deriving DecidableEq, Repr

/-- Scalar protobuf field default value (scalar.rs `DefaultValue`). -/
inductive DefaultValue where
  | f64 (value : FloatLit)
  | f32 (value : FloatLit)
  | i32 (value : Int)
  | i64 (value : Int)
  | u32 (value : Nat)
  | u64 (value : Nat)
  | bool (value : Bool)
  | string (value : String)
  | bytes (value : List Nat)
  | enumeration (tokens : String)
  | path (value : String)
deriving DecidableEq, Repr

/-- Scalar protobuf field kinds (scalar.rs `Kind`). -/
inductive Kind where
  | plain (default : DefaultValue)
  | optional (default : DefaultValue)
  | required (default : DefaultValue)
  | repeated
  | packed
deriving DecidableEq, Repr

/-- Whether a kind is the plain proto3 kind. -/
def Kind.isPlain : Kind → Bool
  | .plain _ => true
  | _ => false

/-- An attribute item attached to a field (syn::Meta): a bare path, a
name-value pair carrying a literal, or a list of nested items. Nested
literal items (syn::NestedMeta::Lit) are irrelevant to every resolver
modelled here and are not represented. -/
inductive Meta where
  | path (name : String)
  | nameValue (name : String) (lit : Lit)
  | list (name : String) (nested : List Meta)

/-- The head name of an attribute (syn's attr.path()). -/
def Meta.name : Meta → String
  | .path n => n
  | .nameValue n _ => n
  | .list n _ => n

/-- Resolves a type attribute to a scalar type; scalar.rs `Ty::from_attr`.
Returns none when the attribute is not a recognized type attribute (the
caller then tries the other resolvers), and fails on a malformed
enumeration attribute. -/
def Ty.from_attr (attr : Meta) : Except String (Option Ty) :=
  match attr with
  | .path name =>
    .ok (if name = "float" then some .float
      else if name = "double" then some .double
      else if name = "int32" then some .int32
      else if name = "int64" then some .int64
      else if name = "uint32" then some .uint32
      else if name = "uint64" then some .uint64
      else if name = "sint32" then some .sint32
      else if name = "sint64" then some .sint64
      else if name = "fixed32" then some .fixed32
      else if name = "fixed64" then some .fixed64
      else if name = "sfixed32" then some .sfixed32
      else if name = "sfixed64" then some .sfixed64
      else if name = "bool" then some .bool
      else if name = "string" then some .string
      else if name = "bytes" then some .bytes
      else none)
  | .nameValue name lit =>
    if name = "enumeration" then
      match lit with
      | .str s => .ok (some (.enumeration s))
      | _ => .ok none
    else .ok none
  | .list name nested =>
    if name = "enumeration" then
      match nested with
      | [item] =>
        match item with
        | .path p => .ok (some (.enumeration p))
        | _ => .error "invalid enumeration attribute: item must be an identifier"
      | _ => .error "invalid enumeration attribute: only a single identifier is supported"
    else .ok none

/-- Modelled from the spec: the label resolver of the field module (its code
is not among the repository files given here). A field declaration carries
its cardinality as one of the bare markers optional, required, repeated. -/
def Label.from_attr : Meta → Option Label
  | .path n =>
    if n = "optional" then some .optional
    else if n = "required" then some .required
    else if n = "repeated" then some .repeated
    else none
  | _ => none

/-- Modelled from the spec: the boolean-attribute helper of the field module
(its code is not among the repository files given here). An attribute is
either bare (meaning true) or carries a boolean literal value. -/
def bool_attr (name : String) (attr : Meta) : Except String (Option Bool) :=
  match attr with
  | .path n => .ok (if n = name then some true else none)
  | .nameValue n lit =>
    if n = name then
      match lit with
      | .bool b => .ok (some b)
      | .str s =>
        if s = "true" then .ok (some true)
        else if s = "false" then .ok (some false)
        else .error "invalid bool value"
      | _ => .error "invalid bool value"
    else .ok none
  | .list _ _ => .ok none

/-- Modelled from the spec: the tag-attribute helper of the field module (its
code is not among the repository files given here). A tag attribute is a
name-value pair carrying the positive integer tag. -/
def tag_attr (attr : Meta) : Except String (Option Nat) :=
  match attr with
  | .nameValue n lit =>
    if n = "tag" then
      match lit with
      | .int v _ => .ok (some v)
      | _ => .error "invalid tag attribute"
    else .ok none
  | _ => .ok none

/-- Modelled from the spec: the duplicate-attribute guard of the field module
(its code is not among the repository files given here). Setting an option
that is already set fails with the given duplicate-attribute message. -/
def setOption {α : Type} (opt : Option α) (value : α) (message : String) :
    Except String (Option α) :=
  match opt with
  | some _ => .error message
  | none => .ok (some value)

/-- Extracts the literal of a default attribute; scalar.rs
`DefaultValue::from_attr`. A default attribute that is not a name-value
pair is malformed. -/
def DefaultValue.from_attr (attr : Meta) : Except String (Option Lit) :=
  if attr.name ≠ "default" then .ok none
  else match attr with
    | .nameValue _ l => .ok (some l)
    | _ => .error "invalid default value attribute"

/-- Digits to the number they denote in base 10. -/
def natOfDigits (cs : List Char) : Nat :=
  cs.foldl (fun acc c => acc * 10 + (c.toNat - 48)) 0

/-- Modelled from the spec: the host literal tokenizer (syn parsing a string
as a literal), an external collaborator specified at its interface boundary.
Recognized shapes: a quoted string, a byte string, the booleans, an integer
literal made of digits with an optional alphabetic suffix, and a decimal
float literal. A leading minus sign is not a literal (the resolver strips
and handles it itself before re-parsing). -/
def parseLitStr (s : String) : Option Lit :=
  match s.toList with
  | [] => none
  | c :: cs =>
    if c = '"' then
      match cs.getLast? with
      | some last =>
        if last = '"' ∧ cs ≠ [] then some (.str (String.mk cs.dropLast)) else none
      | none => none
    else if c = 'b' then
      match cs with
      | q :: rest =>
        if q = '"' then
          match rest.getLast? with
          | some last =>
            if last = '"' ∧ rest ≠ [] then
              some (.byteStr (rest.dropLast.map Char.toNat))
            else none
          | none => none
        else none
      | [] => none
    else if s = "true" then some (.bool true)
    else if s = "false" then some (.bool false)
    else if c.isDigit then
      let digits := (c :: cs).takeWhile Char.isDigit
      let rest := (c :: cs).dropWhile Char.isDigit
      match rest with
      | [] => some (.int (natOfDigits digits) "")
      | '.' :: rest2 =>
        let frac := rest2.takeWhile Char.isDigit
        let suffix := rest2.dropWhile Char.isDigit
        some (.float (String.mk (digits ++ '.' :: frac)) (String.mk suffix))
      | r :: _ =>
        if r.isAlpha then some (.int (natOfDigits digits) (String.mk rest)) else none
    else none

/-- Parse of a literal's digits into a 32-bit signed value
(syn `base10_parse::<i32>` on a non-negative digit string). -/
def base10_parse_i32 (n : Nat) : Except String Int :=
  if n ≤ 2147483647 then .ok (Int.ofNat n)
  else .error "number too large to fit in target type"

/-- Parse of a literal's digits into a 64-bit signed value. -/
def base10_parse_i64 (n : Nat) : Except String Int :=
  if n ≤ 9223372036854775807 then .ok (Int.ofNat n)
  else .error "number too large to fit in target type"

/-- Parse of a literal's digits into a 128-bit signed value. -/
def base10_parse_i128 (n : Nat) : Except String Int :=
  if n ≤ 170141183460469231731687303715884105727 then .ok (Int.ofNat n)
  else .error "number too large to fit in target type"

/-- Parse of a literal's digits into a 32-bit unsigned value. -/
def base10_parse_u32 (n : Nat) : Except String Nat :=
  if n ≤ 4294967295 then .ok n
  else .error "number too large to fit in target type"

/-- Parse of a literal's digits into a 64-bit unsigned value. -/
def base10_parse_u64 (n : Nat) : Except String Nat :=
  if n ≤ 18446744073709551615 then .ok n
  else .error "number too large to fit in target type"

/-- Narrowing of a 64-bit intermediate to 32 bits (Rust `i32::try_from`). -/
def i32_try_from (v : Int) : Except String Int :=
  if -2147483648 ≤ v ∧ v ≤ 2147483647 then .ok v
  else .error "out of range integral type conversion attempted"

/-- Narrowing of a 128-bit intermediate to 64 bits (Rust `i64::try_from`). -/
def i64_try_from (v : Int) : Except String Int :=
  if -9223372036854775808 ≤ v ∧ v ≤ 9223372036854775807 then .ok v
  else .error "out of range integral type conversion attempted"

/-- The suffix acceptance check of scalar.rs `from_lit`: the expected suffix
or no suffix at all. -/
def empty_or_is (expected actual : String) : Bool :=
  expected = actual || actual = ""

/-- Removal of leading and trailing whitespace, modelling Rust str::trim
(the whitespace set restricted to the characters a literal default can
realistically carry). Written over the character list so that it evaluates
by kernel reduction. -/
def strTrim (s : String) : String :=
  String.mk (((s.toList.dropWhile Char.isWhitespace).reverse.dropWhile
    Char.isWhitespace).reverse)

/-- The negative-literal block of scalar.rs `from_lit` (lines 413-444): when
the trimmed string content starts with a minus sign, the remainder is
re-parsed as a literal and negated, signed integer targets going through a
wider intermediate width (64-bit for 32-bit targets, 128-bit for 64-bit
targets) before narrowing. Returns none when the block falls through to the
generic re-parse step. -/
def negLitAttempt (is_i32 is_i64 : Bool) (ty : Ty) (value : String) :
    Option (Except String DefaultValue) :=
  match value.toList with
  | '-' :: rest =>
    match parseLitStr (String.mk rest) with
    | some (.int n suffix) =>
      if is_i32 && empty_or_is "i32" suffix then
        some (match base10_parse_i64 n with
          | .error e => .error e
          | .ok v => (i32_try_from (-v)).map .i32)
      else if is_i64 && empty_or_is "i64" suffix then
        some (match base10_parse_i128 n with
          | .error e => .error e
          | .ok v => (i64_try_from (-v)).map .i64)
      else if ty = Ty.float ∧ suffix = "" then some (.ok (.f32 ⟨true, toString n⟩))
      else if ty = Ty.double ∧ suffix = "" then some (.ok (.f64 ⟨true, toString n⟩))
      else none
    | some (.float text suffix) =>
      if ty = Ty.float && empty_or_is "f32" suffix then some (.ok (.f32 ⟨true, text⟩))
      else if ty = Ty.double && empty_or_is "f64" suffix then
        some (.ok (.f64 ⟨true, text⟩))
      else none
    | _ => none
  | _ => none

/-- Fuelled embedding of scalar.rs `DefaultValue::from_lit`. The source
function recurses at most once, re-parsing the content of a string literal
as a literal of another kind; the fuel makes the recursion structural, and
`DefaultValue.from_lit` below instantiates it at fuel 2, which is proved
exact (fuel above 2 changes nothing, the fuel sentinel is never reached). -/
def fromLitF : Nat → Ty → Lit → Except String DefaultValue
  | 0, _, _ => .error "from_lit recursion limit exceeded"
  | fuel+1, ty, lit =>
    let is_i32 : Bool := ty = Ty.int32 ∨ ty = Ty.sint32 ∨ ty = Ty.sfixed32
    let is_i64 : Bool := ty = Ty.int64 ∨ ty = Ty.sint64 ∨ ty = Ty.sfixed64
    let is_u32 : Bool := ty = Ty.uint32 ∨ ty = Ty.fixed32
    let is_u64 : Bool := ty = Ty.uint64 ∨ ty = Ty.fixed64
    match lit with
    | .int n suffix =>
      if is_i32 && empty_or_is "i32" suffix then (base10_parse_i32 n).map .i32
      else if is_i64 && empty_or_is "i64" suffix then (base10_parse_i64 n).map .i64
      else if is_u32 && empty_or_is "u32" suffix then (base10_parse_u32 n).map .u32
      else if is_u64 && empty_or_is "u64" suffix then (base10_parse_u64 n).map .u64
      else if ty = Ty.float then .ok (.f32 ⟨false, toString n⟩)
      else if ty = Ty.double then .ok (.f64 ⟨false, toString n⟩)
      else .error "invalid default value"
    | .float text suffix =>
      if ty = Ty.float && empty_or_is "f32" suffix then .ok (.f32 ⟨false, text⟩)
      else if ty = Ty.double && empty_or_is "f64" suffix then .ok (.f64 ⟨false, text⟩)
      else .error "invalid default value"
    | .bool b => if ty = Ty.bool then .ok (.bool b) else .error "invalid default value"
    | .byteStr bs => if ty = Ty.bytes then .ok (.bytes bs) else .error "invalid default value"
    | .str s =>
      if ty = Ty.string then .ok (.string s)
      else
        let value := strTrim s
        match ty with
        | .enumeration p => .ok (.enumeration (p ++ "::" ++ value))
        | _ =>
          if ty = Ty.float ∧ value = "inf" then .ok (.path "::core::f32::INFINITY")
          else if ty = Ty.float ∧ value = "-inf" then .ok (.path "::core::f32::NEG_INFINITY")
          else if ty = Ty.float ∧ value = "nan" then .ok (.path "::core::f32::NAN")
          else if ty = Ty.double ∧ value = "inf" then .ok (.path "::core::f64::INFINITY")
          else if ty = Ty.double ∧ value = "-inf" then .ok (.path "::core::f64::NEG_INFINITY")
          else if ty = Ty.double ∧ value = "nan" then .ok (.path "::core::f64::NAN")
          else
            match negLitAttempt is_i32 is_i64 ty value with
            | some r => r
            | none =>
              match parseLitStr value with
              | some (.str _) => .error "invalid default value"
              | some (.int n suffix) => fromLitF fuel ty (.int n suffix)
              | some (.float t suffix) => fromLitF fuel ty (.float t suffix)
              | some (.bool b) => fromLitF fuel ty (.bool b)
              | some (.byteStr bs) => fromLitF fuel ty (.byteStr bs)
              | none => .error "invalid default value"

/-- Resolution of a declared default literal against the field's scalar type;
scalar.rs `DefaultValue::from_lit`. Fuel 2 is exact (see the theorems on
`fromLitF`): the source's single re-parse level never needs more. -/
def DefaultValue.from_lit (ty : Ty) (lit : Lit) : Except String DefaultValue :=
  fromLitF 2 ty lit

/-- The implicit default synthesized when no default is declared; scalar.rs
`DefaultValue::new`. -/
def DefaultValue.new (ty : Ty) : DefaultValue :=
  match ty with
  | .float => .f32 ⟨false, "0.0"⟩
  | .double => .f64 ⟨false, "0.0"⟩
  | .int32 | .sint32 | .sfixed32 => .i32 0
  | .int64 | .sint64 | .sfixed64 => .i64 0
  | .uint32 | .fixed32 => .u32 0
  | .uint64 | .fixed64 => .u64 0
  | .bool => .bool false
  | .string => .string ""
  | .bytes => .bytes []
  | .enumeration p => .enumeration (p ++ "::default()")

/-- Structured form of the token streams the emitter produces for default
values: a plain value, a value cast to i32, a default-constructed value, a
conversion of a string or byte literal, or a fresh empty vector. -/
inductive Tokens where
  | val (v : DefaultValue)
  | as_i32 (v : DefaultValue)
  | default_ctor
  | into_string (s : String)
  | into_bytes (bs : List Nat)
  | empty_vec
deriving DecidableEq, Repr

/-- UTF-8 bytes of a string (Rust `Vec::from(value)` on a String). -/
def strBytes (s : String) : List Nat :=
  s.toUTF8.toList.map (fun b => b.toNat)

/-- The default as a typed expression; scalar.rs `DefaultValue::typed`:
enumerations are cast to their underlying i32, everything else is the value
itself. -/
def DefaultValue.typed (d : DefaultValue) : Tokens :=
  match d with
  | .enumeration t => .as_i32 (.enumeration t)
  | other => .val other

/-- The default as the expression used in encode/length comparisons;
scalar.rs `DefaultValue::typed_for_cmp`: like `typed`, but a string default
is normalized to its byte-sequence equivalent. -/
def DefaultValue.typed_for_cmp (d : DefaultValue) : Tokens :=
  match d with
  | .enumeration t => .as_i32 (.enumeration t)
  | .string v => .val (.bytes (strBytes v))
  | other => .val other

/-- The default ready for use as an initializer; scalar.rs
`DefaultValue::owned`: empty string/bytes defaults collapse to a generic
default-constructed form, non-empty ones convert the literal. -/
def DefaultValue.owned (d : DefaultValue) : Tokens :=
  match d with
  | .string v => if v = "" then .default_ctor else .into_string v
  | .bytes v => if v = [] then .default_ctor else .into_bytes v
  | other => other.typed

/-- A resolved scalar protobuf field (scalar.rs `Field`). -/
structure Field where
  ty : Ty
  kind : Kind
  tag : Nat
deriving DecidableEq, Repr

/-- The kind-resolution match of scalar.rs `Field::new` (lines 66-88), over
the accumulated label, packed flag and presence of a declared default. The
guard structure mirrors the source's arm order. -/
def resolve_kind (ty : Ty) (label : Option Label) (packed : Option Bool)
    (has_default : Bool) (default : DefaultValue) : Except String Kind :=
  if (label = none ∨ label = some .optional ∨ label = some .required) ∧ packed = some true then
    .error "packed attribute may only be applied to repeated fields"
  else if label = some .repeated ∧ packed = some true ∧ ty.is_numeric = false then
    .error "packed attribute may only be applied to numeric types"
  else if label = some .repeated ∧ has_default then
    .error "repeated fields may not have a default value"
  else match label with
    | none => .ok (.plain default)
    | some .optional => .ok (.optional default)
    | some .required => .ok (.required default)
    | some .repeated => if packed.getD ty.is_numeric then .ok .packed else .ok .repeated

/-- The state accumulated by the attribute-classification loop of
scalar.rs `Field::new`. -/
structure LoopState where
  ty : Option Ty := none
  label : Option Label := none
  packed : Option Bool := none
  default : Option Lit := none
  tag : Option Nat := none
  unknown : List Meta := []

/-- One step of the attribute-classification loop of scalar.rs `Field::new`
(lines 28-42): each attribute is routed to the first resolver that
recognizes it, unrecognized attributes are collected. -/
def process_attr (st : LoopState) (attr : Meta) : Except String LoopState :=
  match Ty.from_attr attr with
  | .error e => .error e
  | .ok (some t) =>
    match setOption st.ty t "duplicate type attributes" with
    | .error e => .error e
    | .ok ty2 => .ok { st with ty := ty2 }
  | .ok none =>
    match bool_attr "packed" attr with
    | .error e => .error e
    | .ok (some p) =>
      match setOption st.packed p "duplicate packed attributes" with
      | .error e => .error e
      | .ok packed2 => .ok { st with packed := packed2 }
    | .ok none =>
      match tag_attr attr with
      | .error e => .error e
      | .ok (some t) =>
        match setOption st.tag t "duplicate tag attributes" with
        | .error e => .error e
        | .ok tag2 => .ok { st with tag := tag2 }
      | .ok none =>
        match Label.from_attr attr with
        | some l =>
          match setOption st.label l "duplicate label attributes" with
          | .error e => .error e
          | .ok label2 => .ok { st with label := label2 }
        | none =>
          match DefaultValue.from_attr attr with
          | .error e => .error e
          | .ok (some d) =>
            match setOption st.default d "duplicate default attributes" with
            | .error e => .error e
            | .ok default2 => .ok { st with default := default2 }
          | .ok none => .ok { st with unknown := st.unknown ++ [attr] }

/-- The whole attribute-classification loop of scalar.rs `Field::new`. -/
def process_attrs : LoopState → List Meta → Except String LoopState
  | st, [] => .ok st
  | st, a :: rest =>
    match process_attr st a with
    | .error e => .error e
    | .ok st2 => process_attrs st2 rest

/-- Resolution of a scalar field from its attribute list; scalar.rs
`Field::new`. Returns none when no type attribute is present (the field is
not a scalar field), otherwise validates unknown attributes, the tag, the
declared default and the kind combination, in the source's order. -/
def Field.new (attrs : List Meta) (inferred_tag : Option Nat) :
    Except String (Option Field) :=
  match process_attrs {} attrs with
  | .error e => .error e
  | .ok st =>
    match st.ty with
    | none => .ok none
    | some ty =>
      match st.unknown with
      | [] =>
        match st.tag.or inferred_tag with
        | none => .error "missing tag attribute"
        | some tag =>
          let has_default := st.default.isSome
          match (match st.default with
            | none => Except.ok (DefaultValue.new ty)
            | some lit => DefaultValue.from_lit ty lit) with
          | .error e => .error e
          | .ok default =>
            match resolve_kind ty st.label st.packed has_default default with
            | .error e => .error e
            | .ok kind => .ok (some { ty := ty, kind := kind, tag := tag })
      | [_] => .error "unknown attribute"
      | _ => .error "unknown attributes"

/-- Resolution of a scalar field as a oneof member; scalar.rs
`Field::new_oneof`: resolves with no inferred tag, reinterprets a plain
field as required, and rejects every other kind. -/
def Field.new_oneof (attrs : List Meta) : Except String (Option Field) :=
  match Field.new attrs none with
  | .error e => .error e
  | .ok none => .ok none
  | .ok (some field) =>
    match field.kind with
    | .plain default => .ok (some { field with kind := .required default })
    | .optional _ => .error "invalid optional attribute on oneof field"
    | .required _ => .error "invalid required attribute on oneof field"
    | .packed | .repeated => .error "invalid repeated attribute on oneof field"

/-- Which comparison a guarded fragment uses: the byte-sequence
`is_default` comparison or native inequality. -/
inductive Cmp where
  | is_default
  | native_eq
deriving DecidableEq, Repr

/-- Structured form of the encode fragment emitted per field: either a
serialize call guarded by a comparison of the field's value against its
default, or an unconditional serialize call. -/
inductive EncodeFrag where
  | guarded (cmp : Cmp) (default : Tokens) (tag : Nat)
  | call (tag : Nat)
deriving DecidableEq, Repr

/-- Structured form of the encoded-length fragment emitted per field: either
a field-length expression guarded by the same comparison (yielding 0 on the
default), or an unconditional field-length expression. -/
inductive LenFrag where
  | guarded (cmp : Cmp) (default : Tokens) (tag : Nat)
  | call (tag : Nat)
deriving DecidableEq, Repr

/-- The encode fragment of a field; scalar.rs `Field::encode`. -/
def Field.encode (f : Field) : EncodeFrag :=
  match f.kind with
  | .plain default =>
    if f.ty = Ty.string ∨ f.ty = Ty.bytes then
      .guarded .is_default default.typed_for_cmp f.tag
    else
      .guarded .native_eq default.typed f.tag
  | .optional _ => .call f.tag
  | .required _ | .repeated | .packed => .call f.tag

/-- The encoded-length fragment of a field; scalar.rs `Field::encoded_len`. -/
def Field.encoded_len (f : Field) : LenFrag :=
  match f.kind with
  | .plain default =>
    if f.ty = Ty.string ∨ f.ty = Ty.bytes then
      .guarded .is_default default.typed_for_cmp f.tag
    else
      .guarded .native_eq default.typed f.tag
  | _ => .call f.tag

/-- The default-value expression of a field; scalar.rs `Field::default`. -/
def Field.default (f : Field) : Tokens :=
  match f.kind with
  | .plain v | .required v => v.owned
  | .optional _ => .default_ctor
  | .repeated | .packed => .empty_vec

/-- Evaluation of an encode fragment: does it emit a serialize call, given
whether the field's value equals its default? -/
def EncodeFrag.emits (frag : EncodeFrag) (value_is_default : Bool) : Bool :=
  match frag with
  | .guarded _ _ _ => !value_is_default
  | .call _ => true

/-- Evaluation of a length fragment, given whether the field's value equals
its default and the field's true encoded length. -/
def LenFrag.eval (frag : LenFrag) (value_is_default : Bool) (field_len : Nat) : Nat :=
  match frag with
  | .guarded _ _ _ => if value_is_default then 0 else field_len
  | .call _ => field_len

/-- A method declaration consumed by the service generator
(prost_build::Method, at its interface boundary). -/
structure Method where
  name : String
  proto_name : String
  input_type : String
  output_type : String
deriving DecidableEq, Repr

/-- A service declaration consumed by the service generator
(prost_build::Service, at its interface boundary). -/
structure Service where
  name : String
  package : String
  proto_name : String
deriving DecidableEq, Repr

/-- The method-descriptor binding emitted per method: its stable name, wire
path, and request/response type identifiers. -/
structure MethodDef where
  name : String
  path : String
  input : String
  output : String
deriving DecidableEq, Repr

/-- The method-descriptor binding of generator.rs `gen_method_def`: the wire
path is the format string "/{}.{}/{}" applied to the service package, the
service proto name and the method proto name, verbatim. -/
def gen_method_def (method : Method) (service : Service) : MethodDef :=
  { name := method.proto_name
  , path := "/" ++ service.package ++ "." ++ service.proto_name ++ "/" ++ method.proto_name
  , input := method.input_type
  , output := method.output_type }


/-- Whether an attribute is a recognized type attribute (the classification
the loop of Field.new applies first). -/
def isTypeAttr (a : Meta) : Bool :=
  match Ty.from_attr a with
  | .ok (some _) => true
  | _ => false

/-! ## Claim theorems -/

/-- C1: for every service with package p and proto name sp, and every method
with proto name mp, the emitted method-descriptor binding's wire path is
exactly "/" ++ p ++ "." ++ sp ++ "/" ++ mp, the three components used
verbatim (character for character); in particular package helloworld,
service Greeter, method SayHello yields exactly
"/helloworld.Greeter/SayHello". -/
theorem c1_wire_path_exact :
    (∀ (m : Method) (s : Service),
      (gen_method_def m s).path =
        "/" ++ s.package ++ "." ++ s.proto_name ++ "/" ++ m.proto_name ∧
      ((gen_method_def m s).path).data =
        '/' :: (s.package.data ++ '.' :: (s.proto_name.data ++ '/' :: m.proto_name.data))) ∧
    (gen_method_def
        { name := "say_hello", proto_name := "SayHello"
        , input_type := "HelloRequest", output_type := "HelloReply" }
        { name := "Greeter", package := "helloworld", proto_name := "Greeter" }).path =
      "/helloworld.Greeter/SayHello" := by
  refine ⟨fun m s => ⟨rfl, ?_⟩, rfl⟩
  simp [gen_method_def, String.data_append]

/-- C3: a negative string literal default for a signed integer field is
negated through a wider intermediate width before narrowing, so the minimum
value of the target width is accepted: the 32-bit minimum parses (via the
64-bit intermediate), one below it fails, and the 64-bit bounds behave the
same way via the 128-bit intermediate. -/
theorem c3_negative_min_bounds :
    DefaultValue.from_lit Ty.int32 (Lit.str "-2147483648") =
        .ok (.i32 (-2147483648)) ∧
      DefaultValue.from_lit Ty.int32 (Lit.str "-2147483649") =
        .error "out of range integral type conversion attempted" ∧
      DefaultValue.from_lit Ty.int64 (Lit.str "-9223372036854775808") =
        .ok (.i64 (-9223372036854775808)) ∧
      DefaultValue.from_lit Ty.int64 (Lit.str "-9223372036854775809") =
        .error "out of range integral type conversion attempted" := by
  refine ⟨?_, ?_, ?_, ?_⟩ <;> decide

/-- C5 counterexample: the packed attribute explicitly set to false on a
field with no label does not fail with the packed-only-on-repeated error;
resolution proceeds and yields the plain kind. -/
theorem c5_cex_packed_false_no_label :
    resolve_kind Ty.int32 none (some false) false (DefaultValue.i32 0) =
        .ok (.plain (DefaultValue.i32 0)) ∧
      resolve_kind Ty.int32 none (some false) false (DefaultValue.i32 0) ≠
        .error "packed attribute may only be applied to repeated fields" := by
  refine ⟨rfl, ?_⟩
  decide

/-- C5 (amended): whenever the packed attribute is explicitly set to TRUE
together with any label other than repeated, or with no label at all,
field-kind resolution fails with the packed-only-on-repeated error; an
explicit packed=false never triggers that error (with no label or a
non-repeated label, resolution yields the kind the label dictates). -/
theorem c5_packed_true_requires_repeated :
    ∀ (ty : Ty) (label : Option Label) (hd : Bool) (d : DefaultValue),
      (label ≠ some .repeated →
        resolve_kind ty label (some true) hd d =
          .error "packed attribute may only be applied to repeated fields") ∧
      (resolve_kind ty label (some false) hd d ≠
        .error "packed attribute may only be applied to repeated fields") ∧
      (resolve_kind ty none (some false) hd d = .ok (.plain d)) ∧
      (resolve_kind ty (some .optional) (some false) hd d = .ok (.optional d)) ∧
      (resolve_kind ty (some .required) (some false) hd d = .ok (.required d)) := by
  intro ty label hd d
  refine ⟨?_, ?_, ?_, ?_, ?_⟩
  · intro hlab
    rcases label with _ | l
    · simp [resolve_kind]
    · cases l <;> simp_all [resolve_kind]
  · rcases label with _ | l
    · simp [resolve_kind]
    · cases l <;> cases hd <;> cases hn : ty.is_numeric <;>
        simp_all [resolve_kind, Option.getD]
  · simp [resolve_kind]
  · simp [resolve_kind]
  · simp [resolve_kind]

/-- C2: the resolved kind is packed only if the scalar type is numeric; an
explicit packed=true on a repeated string or bytes field fails with the
packed-only-on-numeric-types error; and a repeated field with no explicit
packed flag and no default resolves to packed exactly when the type is
numeric, repeated otherwise. -/
theorem c2_packed_only_numeric :
    ∀ (ty : Ty) (label : Option Label) (packed : Option Bool) (hd : Bool)
      (d : DefaultValue),
      (resolve_kind ty label packed hd d = .ok .packed → ty.is_numeric = true) ∧
      ((ty = Ty.string ∨ ty = Ty.bytes) →
        resolve_kind ty (some .repeated) (some true) hd d =
          .error "packed attribute may only be applied to numeric types") ∧
      (resolve_kind ty (some .repeated) none false d =
        .ok (if ty.is_numeric then .packed else .repeated)) := by
  intro ty label packed hd d
  refine ⟨?_, ?_, ?_⟩
  · intro h
    unfold resolve_kind at h
    split_ifs at h with h1 h2 h3
    · rename_i hgd
      rcases label with _ | l
      · simp at h
      · cases l
        · simp at h
        · simp at h
        · rcases packed with _ | b
          · simpa using hgd
          · cases b
            · simp at hgd
            · simp at h2
              exact h2
    · rcases label with _ | l
      · simp at h
      · cases l <;> simp at h
  · rintro (rfl | rfl) <;> simp [resolve_kind, Ty.is_numeric]
  · cases hn : ty.is_numeric <;> simp [resolve_kind, Option.getD, hn]


/-- C4: the emitted encode fragment is conditional exactly when the kind is
plain, guarded by comparison of the value against the default, using the
byte-sequence comparison for string/bytes types and native equality for all
other types, and is an unconditional call for the optional, required,
repeated and packed kinds; the encoded-length fragment has the same
conditionality, evaluating to 0 exactly when a plain field equals its
default and to the field's encoded length otherwise. -/
theorem c4_encode_len_conditionality :
    ∀ (f : Field),
      (∀ d, f.kind = .plain d →
        ((f.ty = Ty.string ∨ f.ty = Ty.bytes) →
            f.encode = .guarded .is_default d.typed_for_cmp f.tag ∧
            f.encoded_len = .guarded .is_default d.typed_for_cmp f.tag) ∧
        ((f.ty ≠ Ty.string ∧ f.ty ≠ Ty.bytes) →
            f.encode = .guarded .native_eq d.typed f.tag ∧
            f.encoded_len = .guarded .native_eq d.typed f.tag) ∧
        (∀ len, f.encoded_len.eval true len = 0 ∧ f.encoded_len.eval false len = len) ∧
        (f.encode.emits true = false ∧ f.encode.emits false = true)) ∧
      (f.kind.isPlain = false →
        f.encode = .call f.tag ∧ f.encoded_len = .call f.tag ∧
        (∀ b, f.encode.emits b = true) ∧
        (∀ b len, f.encoded_len.eval b len = len)) := by
  rintro ⟨ty, kind, tag⟩
  constructor
  · rintro d rfl
    by_cases hsb : ty = Ty.string ∨ ty = Ty.bytes
    · refine ⟨fun _ => ?_, fun hn => absurd hsb (by simp [hn.1, hn.2]), ?_, ?_⟩ <;>
        simp [Field.encode, Field.encoded_len, LenFrag.eval, EncodeFrag.emits, hsb]
    · refine ⟨fun hc => absurd hc hsb, fun _ => ?_, ?_, ?_⟩ <;>
        simp [Field.encode, Field.encoded_len, LenFrag.eval, EncodeFrag.emits, hsb]
  · intro hnp
    cases kind <;> simp_all [Kind.isPlain, Field.encode, Field.encoded_len,
      LenFrag.eval, EncodeFrag.emits]

/-- C7: resolving a field as a oneof member reinterprets a plain field as
required with the same default, and fails with an invalid-oneof-member
error whenever the attributes resolve to optional, required, repeated or
packed; in particular a plain attribute set resolves to required, and the
same set with an added optional marker fails. -/
theorem c7_oneof_resolution :
    (∀ (attrs : List Meta) (f : Field),
      Field.new attrs none = .ok (some f) →
        (∀ d, f.kind = .plain d →
          Field.new_oneof attrs = .ok (some { f with kind := .required d })) ∧
        (∀ d, f.kind = .optional d →
          Field.new_oneof attrs = .error "invalid optional attribute on oneof field") ∧
        (∀ d, f.kind = .required d →
          Field.new_oneof attrs = .error "invalid required attribute on oneof field") ∧
        ((f.kind = .repeated ∨ f.kind = .packed) →
          Field.new_oneof attrs = .error "invalid repeated attribute on oneof field")) ∧
    Field.new_oneof [Meta.path "int32", Meta.nameValue "tag" (Lit.int 1 "")] =
      .ok (some { ty := Ty.int32, kind := .required (DefaultValue.i32 0), tag := 1 }) ∧
    Field.new_oneof [Meta.path "int32", Meta.path "optional",
        Meta.nameValue "tag" (Lit.int 1 "")] =
      .error "invalid optional attribute on oneof field" := by
  refine ⟨?_, rfl, rfl⟩
  intro attrs f hres
  refine ⟨?_, ?_, ?_, ?_⟩
  · rintro d hk
    simp [Field.new_oneof, hres, hk]
  · rintro d hk
    simp [Field.new_oneof, hres, hk]
  · rintro d hk
    simp [Field.new_oneof, hres, hk]
  · rintro (hk | hk) <;> simp [Field.new_oneof, hres, hk]


/-- One loop step neither sets the type when the attribute is not a type
attribute, nor clears it: with no type attribute seen, the accumulated type
stays none. -/
theorem process_attr_ty_none (st : LoopState) (a : Meta) (st2 : LoopState)
    (hty : st.ty = none) (hta : isTypeAttr a = false)
    (h : process_attr st a = .ok st2) : st2.ty = none := by
  unfold process_attr at h
  cases hT : Ty.from_attr a with
  | error e => rw [hT] at h; simp at h
  | ok o =>
    cases o with
    | some t => simp [isTypeAttr, hT] at hta
    | none =>
      rw [hT] at h
      repeat' split at h
      all_goals try (cases h)
      all_goals simp_all

/-- Over a whole attribute list with no type attribute, the loop keeps the
accumulated type none. -/
theorem process_attrs_ty_none :
    ∀ (attrs : List Meta) (st st2 : LoopState),
      (∀ a ∈ attrs, isTypeAttr a = false) → st.ty = none →
      process_attrs st attrs = .ok st2 → st2.ty = none := by
  intro attrs
  induction attrs with
  | nil =>
    intro st st2 _ hty h
    simp only [process_attrs] at h
    cases h
    exact hty
  | cons a rest ih =>
    intro st st2 hall hty h
    unfold process_attrs at h
    cases hpa : process_attr st a with
    | error e => rw [hpa] at h; simp at h
    | ok st1 =>
      rw [hpa] at h
      exact ih st1 st2 (fun x hx => hall x (List.mem_cons_of_mem _ hx))
        (process_attr_ty_none st a st1 hty (hall a (List.mem_cons_self _ _)) hpa) h

/-- C9 counterexample: an attribute list with no type attribute can still
fail inside the classification loop — a bare default attribute (not a
name-value pair) is malformed — so resolution does not return the no-match
result without error, and the error is not a duplicate-attribute error. -/
theorem c9_cex_no_type_attr_error :
    Field.new [Meta.path "default"] (some 1) =
        .error "invalid default value attribute" ∧
      Field.new [Meta.path "default"] (some 1) ≠ .ok none := by
  exact ⟨rfl, by decide⟩

/-- C9 (amended): when no recognized type attribute is present, resolution
returns the no-match result whenever the classification loop itself
completes, and otherwise propagates the loop's own error (a duplicate or
malformed attribute); the unknown-attribute, missing-tag, invalid-default
and invalid-combination checks are unreachable without a type attribute —
in particular an unknown attribute with no tag available still yields the
no-match result. -/
theorem c9_no_type_attr_no_match :
    (∀ (attrs : List Meta) (itag : Option Nat),
      (∀ a ∈ attrs, isTypeAttr a = false) →
      Field.new attrs itag =
        (match process_attrs {} attrs with
          | .ok _ => .ok none
          | .error e => .error e)) ∧
    Field.new [Meta.path "whatever"] none = .ok none ∧
    Field.new [Meta.path "optional", Meta.path "optional"] none =
      .error "duplicate label attributes" := by
  refine ⟨?_, rfl, rfl⟩
  intro attrs itag hall
  unfold Field.new
  cases hp : process_attrs {} attrs with
  | error e => rfl
  | ok st =>
    have hsty : st.ty = none := process_attrs_ty_none attrs {} st hall rfl hp
    simp [hsty]

/-- C10: the oneof entry point resolves with no inferred tag, so a scalar
oneof member whose attributes carry no tag fails with the missing-tag
error no matter what the rest of the (otherwise clean) attribute set is;
the same attribute set resolved as an ordinary field with a positional
inferred tag succeeds. -/
theorem c10_oneof_missing_tag :
    (∀ (attrs : List Meta) (st : LoopState) (ty0 : Ty),
      process_attrs {} attrs = .ok st → st.ty = some ty0 → st.unknown = [] →
      st.tag = none → Field.new_oneof attrs = .error "missing tag attribute") ∧
    Field.new_oneof [Meta.path "int32"] = .error "missing tag attribute" ∧
    Field.new [Meta.path "int32"] (some 7) =
      .ok (some { ty := Ty.int32, kind := .plain (DefaultValue.i32 0), tag := 7 }) := by
  refine ⟨?_, rfl, rfl⟩
  intro attrs st ty0 hp hty hunk htag
  unfold Field.new_oneof Field.new
  rw [hp]
  simp [hty, hunk, htag, Option.or]


/-! ## Fuel exactness, totality and path-inversion lemmas for from_lit -/

/-- An integer literal resolves without recursion: the fuel is irrelevant. -/
theorem fromLitF_int_fuel (n m : Nat) (ty : Ty) (a : Nat) (b : String) :
    fromLitF (n+1) ty (.int a b) = fromLitF (m+1) ty (.int a b) := rfl

/-- A float literal resolves without recursion: the fuel is irrelevant. -/
theorem fromLitF_float_fuel (n m : Nat) (ty : Ty) (a b : String) :
    fromLitF (n+1) ty (.float a b) = fromLitF (m+1) ty (.float a b) := rfl

/-- A boolean literal resolves without recursion: the fuel is irrelevant. -/
theorem fromLitF_bool_fuel (n m : Nat) (ty : Ty) (b : Bool) :
    fromLitF (n+1) ty (.bool b) = fromLitF (m+1) ty (.bool b) := rfl

/-- A byte-string literal resolves without recursion: the fuel is
irrelevant. -/
theorem fromLitF_byteStr_fuel (n m : Nat) (ty : Ty) (bs : List Nat) :
    fromLitF (n+1) ty (.byteStr bs) = fromLitF (m+1) ty (.byteStr bs) := rfl

/-- A string literal recurses at most once, into a non-string literal that
itself resolves without recursion, so any fuel of at least 2 gives the same
result. -/
theorem fromLitF_str_fuel (n m : Nat) (ty : Ty) (s : String) :
    fromLitF (n+2) ty (.str s) = fromLitF (m+2) ty (.str s) := by
  simp only [fromLitF]

/-- Resolution of an integer literal never ends in the fuel sentinel. -/
theorem fromLitF_int_ne_limit (n : Nat) (ty : Ty) (a : Nat) (b : String) :
    fromLitF (n+1) ty (.int a b) ≠ .error "from_lit recursion limit exceeded" := by
  simp only [fromLitF]
  split_ifs <;>
    simp [base10_parse_i32, base10_parse_i64, base10_parse_u32, base10_parse_u64,
      Except.map] <;> split_ifs <;> simp

/-- Resolution of a float literal never ends in the fuel sentinel. -/
theorem fromLitF_float_ne_limit (n : Nat) (ty : Ty) (a b : String) :
    fromLitF (n+1) ty (.float a b) ≠ .error "from_lit recursion limit exceeded" := by
  simp only [fromLitF]
  split_ifs <;> simp

/-- Resolution of a boolean literal never ends in the fuel sentinel. -/
theorem fromLitF_bool_ne_limit (n : Nat) (ty : Ty) (b : Bool) :
    fromLitF (n+1) ty (.bool b) ≠ .error "from_lit recursion limit exceeded" := by
  simp only [fromLitF]
  split_ifs <;> simp

/-- Resolution of a byte-string literal never ends in the fuel sentinel. -/
theorem fromLitF_byteStr_ne_limit (n : Nat) (ty : Ty) (bs : List Nat) :
    fromLitF (n+1) ty (.byteStr bs) ≠ .error "from_lit recursion limit exceeded" := by
  simp only [fromLitF]
  split_ifs <;> simp

/-- The negative-literal block never produces the fuel sentinel. -/
theorem negLitAttempt_ne_limit (i32 i64 : Bool) (ty : Ty) (v : String)
    (r : Except String DefaultValue)
    (h : negLitAttempt i32 i64 ty v = some r) :
    r ≠ .error "from_lit recursion limit exceeded" := by
  unfold negLitAttempt at h
  repeat' split at h
  all_goals try (cases h)
  all_goals simp_all [base10_parse_i64, base10_parse_i128, i32_try_from, i64_try_from,
    Except.map]
  all_goals try (split_ifs at * <;> simp_all)
  all_goals (rename_i heq; intro hc; rw [hc] at heq; revert heq; decide)

/-- Resolution of a string literal at fuel 2 never ends in the fuel
sentinel: the one recursion level the source performs is enough. -/
theorem fromLitF_str_ne_limit (ty : Ty) (s : String) :
    fromLitF 2 ty (.str s) ≠ .error "from_lit recursion limit exceeded" := by
  rw [fromLitF]
  by_cases hts : ty = Ty.string
  · simp [hts]
  · rw [if_neg hts]
    split
    · simp
    · dsimp only
      split_ifs <;> try simp
      split
      · rename_i r heq
        exact negLitAttempt_ne_limit _ _ _ _ r heq
      · split
        · simp
        · exact fromLitF_int_ne_limit 0 ty _ _
        · exact fromLitF_float_ne_limit 0 ty _ _
        · exact fromLitF_bool_ne_limit 0 ty _
        · exact fromLitF_byteStr_ne_limit 0 ty _
        · simp

/-- Resolution of an integer literal never produces a symbolic path
constant. -/
theorem fromLitF_int_ne_path (n : Nat) (ty : Ty) (a : Nat) (b : String) (c : String) :
    fromLitF (n+1) ty (.int a b) ≠ .ok (.path c) := by
  simp only [fromLitF]
  split_ifs <;>
    simp [base10_parse_i32, base10_parse_i64, base10_parse_u32, base10_parse_u64,
      Except.map] <;> split_ifs <;> simp

/-- Resolution of a float literal never produces a symbolic path constant. -/
theorem fromLitF_float_ne_path (n : Nat) (ty : Ty) (a b : String) (c : String) :
    fromLitF (n+1) ty (.float a b) ≠ .ok (.path c) := by
  simp only [fromLitF]
  split_ifs <;> simp

/-- Resolution of a boolean literal never produces a symbolic path
constant. -/
theorem fromLitF_bool_ne_path (n : Nat) (ty : Ty) (b : Bool) (c : String) :
    fromLitF (n+1) ty (.bool b) ≠ .ok (.path c) := by
  simp only [fromLitF]
  split_ifs <;> simp

/-- Resolution of a byte-string literal never produces a symbolic path
constant. -/
theorem fromLitF_byteStr_ne_path (n : Nat) (ty : Ty) (bs : List Nat) (c : String) :
    fromLitF (n+1) ty (.byteStr bs) ≠ .ok (.path c) := by
  simp only [fromLitF]
  split_ifs <;> simp

/-- The negative-literal block never produces a symbolic path constant. -/
theorem negLitAttempt_ne_path (i32 i64 : Bool) (ty : Ty) (v : String)
    (r : Except String DefaultValue) (c : String)
    (h : negLitAttempt i32 i64 ty v = some r) : r ≠ .ok (.path c) := by
  unfold negLitAttempt at h
  repeat' split at h
  all_goals try (cases h)
  all_goals simp_all [base10_parse_i64, base10_parse_i128, i32_try_from, i64_try_from,
    Except.map]
  all_goals try (split_ifs at * <;> simp_all)

/-- The complete inversion for symbolic path constants: from_lit produces a
path only for a string literal on a float or double field, and only when the
trimmed content is one of the three special float spellings, each mapped to
its fixed constant of the matching width. -/
theorem fromLit_ok_path (ty : Ty) (s : String) (c : String) :
    DefaultValue.from_lit ty (.str s) = .ok (.path c) →
    (ty = Ty.float ∧
      ((strTrim s = "inf" ∧ c = "::core::f32::INFINITY") ∨
       (strTrim s = "-inf" ∧ c = "::core::f32::NEG_INFINITY") ∨
       (strTrim s = "nan" ∧ c = "::core::f32::NAN"))) ∨
    (ty = Ty.double ∧
      ((strTrim s = "inf" ∧ c = "::core::f64::INFINITY") ∨
       (strTrim s = "-inf" ∧ c = "::core::f64::NEG_INFINITY") ∨
       (strTrim s = "nan" ∧ c = "::core::f64::NAN"))) := by
  unfold DefaultValue.from_lit
  rw [fromLitF]
  by_cases hts : ty = Ty.string
  · simp [hts]
  · rw [if_neg hts]
    split
    · simp
    · dsimp only
      split_ifs with h1 h2 h3 h4 h5 h6 <;> intro h
      · simp only [Except.ok.injEq, DefaultValue.path.injEq] at h
        exact Or.inl ⟨h1.1, Or.inl ⟨h1.2, h.symm⟩⟩
      · simp only [Except.ok.injEq, DefaultValue.path.injEq] at h
        exact Or.inl ⟨h2.1, Or.inr (Or.inl ⟨h2.2, h.symm⟩)⟩
      · simp only [Except.ok.injEq, DefaultValue.path.injEq] at h
        exact Or.inl ⟨h3.1, Or.inr (Or.inr ⟨h3.2, h.symm⟩)⟩
      · simp only [Except.ok.injEq, DefaultValue.path.injEq] at h
        exact Or.inr ⟨h4.1, Or.inl ⟨h4.2, h.symm⟩⟩
      · simp only [Except.ok.injEq, DefaultValue.path.injEq] at h
        exact Or.inr ⟨h5.1, Or.inr (Or.inl ⟨h5.2, h.symm⟩)⟩
      · simp only [Except.ok.injEq, DefaultValue.path.injEq] at h
        exact Or.inr ⟨h6.1, Or.inr (Or.inr ⟨h6.2, h.symm⟩)⟩
      · exfalso
        split at h
        · rename_i r heq
          exact negLitAttempt_ne_path _ _ _ _ r c heq h
        · split at h
          · simp at h
          · exact fromLitF_int_ne_path 0 ty _ _ c h
          · exact fromLitF_float_ne_path 0 ty _ _ c h
          · exact fromLitF_bool_ne_path 0 ty _ c h
          · exact fromLitF_byteStr_ne_path 0 ty _ c h
          · simp at h

/-- C6 counterexample: the special float strings are matched on the
whitespace-trimmed content of the literal, so the string " inf" — which is
not equal to "inf" — also maps to the f32 infinity constant, contradicting
exact matching with no other string mapping to the constants. -/
theorem c6_cex_whitespace_inf :
    DefaultValue.from_lit Ty.float (Lit.str " inf") =
        .ok (.path "::core::f32::INFINITY") ∧
      (" inf" : String) ≠ "inf" := ⟨by decide, by decide⟩

/-- C6 (amended): for a float or double field, from_lit on a string literal
yields the symbolic infinity, negative-infinity and NaN path constants of
the matching float width exactly when the whitespace-trimmed content of the
string equals "inf", "-inf" or "nan" (case-sensitively); in particular the
exact strings themselves succeed; the constants are three pairwise distinct
symbolic paths, none of them the synthesized numeric zero default; and no
string maps to any other path constant. -/
theorem c6_special_floats :
    (∀ s : String,
      (DefaultValue.from_lit Ty.float (.str s) = .ok (.path "::core::f32::INFINITY") ↔
        strTrim s = "inf") ∧
      (DefaultValue.from_lit Ty.float (.str s) = .ok (.path "::core::f32::NEG_INFINITY") ↔
        strTrim s = "-inf") ∧
      (DefaultValue.from_lit Ty.float (.str s) = .ok (.path "::core::f32::NAN") ↔
        strTrim s = "nan") ∧
      (DefaultValue.from_lit Ty.double (.str s) = .ok (.path "::core::f64::INFINITY") ↔
        strTrim s = "inf") ∧
      (DefaultValue.from_lit Ty.double (.str s) = .ok (.path "::core::f64::NEG_INFINITY") ↔
        strTrim s = "-inf") ∧
      (DefaultValue.from_lit Ty.double (.str s) = .ok (.path "::core::f64::NAN") ↔
        strTrim s = "nan")) ∧
    (∀ (s c : String),
      DefaultValue.from_lit Ty.float (.str s) = .ok (.path c) →
        c = "::core::f32::INFINITY" ∨ c = "::core::f32::NEG_INFINITY" ∨
          c = "::core::f32::NAN") ∧
    (∀ (s c : String),
      DefaultValue.from_lit Ty.double (.str s) = .ok (.path c) →
        c = "::core::f64::INFINITY" ∨ c = "::core::f64::NEG_INFINITY" ∨
          c = "::core::f64::NAN") ∧
    (DefaultValue.from_lit Ty.float (.str "inf") = .ok (.path "::core::f32::INFINITY") ∧
     DefaultValue.from_lit Ty.float (.str "-inf") =
       .ok (.path "::core::f32::NEG_INFINITY") ∧
     DefaultValue.from_lit Ty.float (.str "nan") = .ok (.path "::core::f32::NAN")) ∧
    (DefaultValue.path "::core::f32::INFINITY" ≠ DefaultValue.new Ty.float ∧
     DefaultValue.path "::core::f32::NEG_INFINITY" ≠ DefaultValue.new Ty.float ∧
     DefaultValue.path "::core::f32::NAN" ≠ DefaultValue.new Ty.float ∧
     ("::core::f32::INFINITY" : String) ≠ "::core::f32::NEG_INFINITY" ∧
     ("::core::f32::INFINITY" : String) ≠ "::core::f32::NAN" ∧
     ("::core::f32::NEG_INFINITY" : String) ≠ "::core::f32::NAN") := by
  refine ⟨?_, ?_, ?_, ⟨by decide, by decide, by decide⟩, by decide⟩
  · intro s
    refine ⟨⟨fun h => ?_, fun hv => by simp [DefaultValue.from_lit, fromLitF, hv]⟩,
      ⟨fun h => ?_, fun hv => by simp [DefaultValue.from_lit, fromLitF, hv]⟩,
      ⟨fun h => ?_, fun hv => by simp [DefaultValue.from_lit, fromLitF, hv]⟩,
      ⟨fun h => ?_, fun hv => by simp [DefaultValue.from_lit, fromLitF, hv]⟩,
      ⟨fun h => ?_, fun hv => by simp [DefaultValue.from_lit, fromLitF, hv]⟩,
      ⟨fun h => ?_, fun hv => by simp [DefaultValue.from_lit, fromLitF, hv]⟩⟩
    · rcases fromLit_ok_path _ _ _ h with
        ⟨_, (⟨hv, _⟩ | ⟨_, hc⟩ | ⟨_, hc⟩)⟩ | ⟨hdq, _⟩
      · exact hv
      · exact absurd hc (by decide)
      · exact absurd hc (by decide)
      · exact absurd hdq (by decide)
    · rcases fromLit_ok_path _ _ _ h with
        ⟨_, (⟨_, hc⟩ | ⟨hv, _⟩ | ⟨_, hc⟩)⟩ | ⟨hdq, _⟩
      · exact absurd hc (by decide)
      · exact hv
      · exact absurd hc (by decide)
      · exact absurd hdq (by decide)
    · rcases fromLit_ok_path _ _ _ h with
        ⟨_, (⟨_, hc⟩ | ⟨_, hc⟩ | ⟨hv, _⟩)⟩ | ⟨hdq, _⟩
      · exact absurd hc (by decide)
      · exact absurd hc (by decide)
      · exact hv
      · exact absurd hdq (by decide)
    · rcases fromLit_ok_path _ _ _ h with
        ⟨hdq, _⟩ | ⟨_, (⟨hv, _⟩ | ⟨_, hc⟩ | ⟨_, hc⟩)⟩
      · exact absurd hdq (by decide)
      · exact hv
      · exact absurd hc (by decide)
      · exact absurd hc (by decide)
    · rcases fromLit_ok_path _ _ _ h with
        ⟨hdq, _⟩ | ⟨_, (⟨_, hc⟩ | ⟨hv, _⟩ | ⟨_, hc⟩)⟩
      · exact absurd hdq (by decide)
      · exact absurd hc (by decide)
      · exact hv
      · exact absurd hc (by decide)
    · rcases fromLit_ok_path _ _ _ h with
        ⟨hdq, _⟩ | ⟨_, (⟨_, hc⟩ | ⟨_, hc⟩ | ⟨hv, _⟩)⟩
      · exact absurd hdq (by decide)
      · exact absurd hc (by decide)
      · exact absurd hc (by decide)
      · exact hv
  · intro s c h
    rcases fromLit_ok_path _ _ _ h with
      ⟨_, (⟨_, hc⟩ | ⟨_, hc⟩ | ⟨_, hc⟩)⟩ | ⟨hdq, _⟩
    · exact Or.inl hc
    · exact Or.inr (Or.inl hc)
    · exact Or.inr (Or.inr hc)
    · exact absurd hdq (by decide)
  · intro s c h
    rcases fromLit_ok_path _ _ _ h with
      ⟨hdq, _⟩ | ⟨_, (⟨_, hc⟩ | ⟨_, hc⟩ | ⟨_, hc⟩)⟩
    · exact absurd hdq (by decide)
    · exact Or.inl hc
    · exact Or.inr (Or.inl hc)
    · exact Or.inr (Or.inr hc)

/-- C8: resolution restarts at most once on a string literal whose content
re-parses as another literal kind — fuel 2 is exact for the fuelled
embedding, the sentinel is unreachable (from_lit always terminates with a
program value or a program error), fuel 1 is insufficient on an input that
does recurse (exhibiting the single restart), and a string literal whose
content is itself a quoted string fails with the invalid-default error. -/
theorem c8_from_lit_depth_one :
    (∀ (n : Nat) (ty : Ty) (lit : Lit), fromLitF (n+2) ty lit = fromLitF 2 ty lit) ∧
    (∀ (ty : Ty) (lit : Lit),
      DefaultValue.from_lit ty lit ≠ .error "from_lit recursion limit exceeded") ∧
    fromLitF 1 Ty.int32 (Lit.str "5") = .error "from_lit recursion limit exceeded" ∧
    DefaultValue.from_lit Ty.int32 (Lit.str "5") = .ok (.i32 5) ∧
    DefaultValue.from_lit Ty.int32 (Lit.str "\"5\"") =
      .error "invalid default value" := by
  refine ⟨?_, ?_, by decide, by decide, by decide⟩
  · intro n ty lit
    cases lit with
    | int a b => exact fromLitF_int_fuel (n+1) 1 ty a b
    | float a b => exact fromLitF_float_fuel (n+1) 1 ty a b
    | bool b => exact fromLitF_bool_fuel (n+1) 1 ty b
    | byteStr bs => exact fromLitF_byteStr_fuel (n+1) 1 ty bs
    | str s2 => exact fromLitF_str_fuel n 0 ty s2
  · intro ty lit
    cases lit with
    | int a b => exact fromLitF_int_ne_limit 1 ty a b
    | float a b => exact fromLitF_float_ne_limit 1 ty a b
    | bool b => exact fromLitF_bool_ne_limit 1 ty b
    | byteStr bs => exact fromLitF_byteStr_ne_limit 1 ty bs
    | str s2 => exact fromLitF_str_ne_limit ty s2

end Grpc
